import Mathlib

/-!
# Verification of the xBotV5 core (`xbotv5/core/signal.py`, `xbotv5/core/bot.py`)

A shallow embedding of the two design-bearing components of the repository:
the `Signal` value object (validation, query methods, dict serialization) and
the `Bot` lifecycle controller (initialization, the run loop with its
exception routing and cleanup, the position-closed statistics handler and the
`win_rate` property).

Modelling conventions:
- Python floats are modelled as `Rat` (the values the code manipulates are
  exact decimals; no NaN behaviour is claimed anywhere).
- Python exceptions are an inductive type `Exc`.  Following Python's class
  hierarchy, `KeyboardInterrupt` and `SystemExit` derive from `BaseException`
  but NOT from `Exception`, so an `except Exception` clause does not catch
  them; `Exc.isInstanceOfException` records exactly this.
- Mutating methods become state transformers `State → State` (or return an
  `Option Exc` alongside the state when the Python method can raise).
- The asynchronous run loop is modelled as a pure function over a finite
  schedule of per-iteration outcomes; hook invocations and event-bus
  emissions are recorded in an explicit trace.
-/

/-! ## Exceptions (Python class hierarchy facts used by the code) -/

/-- Model of the Python exceptions that appear in the embedded code.
`keyboardInterrupt` and `systemExit` model `KeyboardInterrupt` / `SystemExit`
(direct subclasses of `BaseException`); the remaining constructors model
ordinary `Exception` subclasses, carrying their message string. -/
inductive Exc where
  | keyboardInterrupt
  | systemExit
  | valueError (msg : String)
  | configurationError (msg : String)
  | runtimeError (msg : String)
deriving DecidableEq, Repr

/-- Whether `isinstance(e, Exception)` holds, i.e. whether an
`except Exception` clause catches `e`.  In Python, `KeyboardInterrupt` and
`SystemExit` derive from `BaseException` but not from `Exception`. -/
def Exc.isInstanceOfException : Exc → Bool
  | .keyboardInterrupt => false
  | .systemExit => false
  | _ => true

/-- Whether `isinstance(e, (KeyboardInterrupt, SystemExit))` holds. -/
def Exc.isKbdIntOrSysExit : Exc → Bool
  | .keyboardInterrupt => true
  | .systemExit => true
  | _ => false

/-- Whether `e` is a `ConfigurationError`. -/
def Exc.isConfigurationError : Exc → Bool
  | .configurationError _ => true
  | _ => false

/-- Python `str(e)` as used by the f-strings in the embedded code (the
message for ordinary exceptions, `""` for the two bare control exceptions). -/
def Exc.pyStr : Exc → String
  | .keyboardInterrupt => ""
  | .systemExit => ""
  | .valueError m => m
  | .configurationError m => m
  | .runtimeError m => m

/-! ## Timestamps

Python `datetime` instants are modelled as natural numbers (an instant
code).  `isoformat` / `fromisoformat` model the standard library's
ISO-8601 rendering and parser, for which the stdlib guarantees
`datetime.fromisoformat(d.isoformat()) == d`; here the rendering is the
decimal numeral of the instant (never the empty string, so it is always
truthy, exactly like a real ISO-8601 string). -/

abbrev DateTime := Nat

/-- The decimal digit character for `n < 10`. -/
def digitChar (n : Nat) : Char := Char.ofNat (48 + n)

/-- The numeric value of a decimal digit character. -/
def charDigit (c : Char) : Nat := c.toNat - 48

/-- Model of `datetime.isoformat`: an injective textual rendering of the
instant (its decimal numeral, most significant digit first). -/
def isoformat (d : DateTime) : String :=
  if d = 0 then "0" else String.mk (((Nat.digits 10 d).map digitChar).reverse)

/-- Model of `datetime.fromisoformat`: parses the rendering produced by
`isoformat` and fails (`ValueError` in Python) on anything else. -/
def fromisoformat (s : String) : Option DateTime :=
  if !s.data.isEmpty && s.data.all Char.isDigit then
    some (Nat.ofDigits 10 ((s.data.map charDigit).reverse))
  else none

/-! ## Signal model (`xbotv5/core/signal.py`) -/

/-- Embedding of `class SignalType(Enum)` with its six members. -/
inductive SignalType where
  | buy
  | sell
  | hold
  | close
  | stop_loss
  | take_profit
deriving DecidableEq, Repr

/-- The `.value` string tag of each enum member. -/
def SignalType.value : SignalType → String
  | .buy => "buy"
  | .sell => "sell"
  | .hold => "hold"
  | .close => "close"
  | .stop_loss => "stop_loss"
  | .take_profit => "take_profit"

/-- The enum constructor call `SignalType(tag)`: looks the string tag up
among the six members, `none` modelling the `ValueError` Python raises for
an unknown tag. -/
def SignalType.fromValue (s : String) : Option SignalType :=
  if s = "buy" then some .buy
  else if s = "sell" then some .sell
  else if s = "hold" then some .hold
  else if s = "close" then some .close
  else if s = "stop_loss" then some .stop_loss
  else if s = "take_profit" then some .take_profit
  else none

/-- Embedding of `@dataclass class Signal`, in its post-construction state: after
`__post_init__` has run, `metadata` is a mapping (never `None`) and
`timestamp` is a datetime (never `None`), so those two fields are not
optional here.  The type is parametric in the metadata mapping type `μ`
(`metadata: Dict[str, Any]` passes through serialization untouched). -/
structure Signal (μ : Type) where
  type : SignalType
  symbol : String
  confidence : Rat
  price : Option Rat
  quantity : Option Rat
  stop_loss : Option Rat
  take_profit : Option Rat
  metadata : μ
  timestamp : DateTime
  source : String
deriving Repr

/-- Embedding of the validation step of `Signal.__post_init__`: raises
`ValueError("Confidence must be between 0.0 and 1.0")` unless
`0.0 <= confidence <= 1.0` (the default filling of `metadata`/`timestamp`
is already reflected in the fields being non-optional). -/
def Signal.post_init {μ : Type} (s : Signal μ) : Except Exc (Signal μ) :=
  if ¬ (0 ≤ s.confidence ∧ s.confidence ≤ 1) then
    Except.error (Exc.valueError "Confidence must be between 0.0 and 1.0")
  else Except.ok s

/-- Embedding of `Signal.is_actionable`: true unless the type is HOLD. -/
def Signal.is_actionable {μ : Type} (s : Signal μ) : Bool :=
  s.type != SignalType.hold

/-- Embedding of `Signal.is_entry_signal`: true exactly for BUY. -/
def Signal.is_entry_signal {μ : Type} (s : Signal μ) : Bool :=
  s.type == SignalType.buy

/-- Embedding of `Signal.is_exit_signal`: membership of the type in
`{SELL, CLOSE, STOP_LOSS, TAKE_PROFIT}`. -/
def Signal.is_exit_signal {μ : Type} (s : Signal μ) : Bool :=
  [SignalType.sell, SignalType.close,
   SignalType.stop_loss, SignalType.take_profit].contains s.type

/-- The dictionary produced by `Signal.to_dict` / consumed by
`Signal.from_dict`, with one slot per key.  `timestamp` is optional
because `to_dict` writes `None` for a missing timestamp. -/
structure SignalDict (μ : Type) where
  type : String
  symbol : String
  confidence : Rat
  price : Option Rat
  quantity : Option Rat
  stop_loss : Option Rat
  take_profit : Option Rat
  metadata : μ
  timestamp : Option String
  source : String
deriving Repr

/-- Embedding of `Signal.to_dict`: encodes the type as its string tag and the timestamp
as its ISO string (`self.timestamp.isoformat() if self.timestamp else None`;
post-construction the timestamp is always a truthy datetime, so the ISO
branch is always taken). -/
def Signal.to_dict {μ : Type} (s : Signal μ) : SignalDict μ :=
  { type := s.type.value
    symbol := s.symbol
    confidence := s.confidence
    price := s.price
    quantity := s.quantity
    stop_loss := s.stop_loss
    take_profit := s.take_profit
    metadata := s.metadata
    timestamp := some (isoformat s.timestamp)
    source := s.source }

/-- Embedding of `Signal.from_dict`: copies the dict, decodes the `type` tag with the
`SignalType` constructor (`ValueError` on an unknown tag), parses the
timestamp with `fromisoformat` when present and truthy (when the slot is
`None` the field is left unset and `__post_init__` fills it with the
current instant, passed here explicitly as `now`), and finally runs the
dataclass constructor including `__post_init__`'s confidence validation. -/
def Signal.from_dict {μ : Type} (now : DateTime) (d : SignalDict μ) :
    Except Exc (Signal μ) :=
  match SignalType.fromValue d.type with
  | none => Except.error (Exc.valueError (d.type ++ " is not a valid SignalType"))
  | some ty =>
    match d.timestamp with
    | some str =>
      match fromisoformat str with
      | none => Except.error (Exc.valueError ("Invalid isoformat string: " ++ str))
      | some ts =>
        Signal.post_init
          { type := ty, symbol := d.symbol, confidence := d.confidence
            price := d.price, quantity := d.quantity
            stop_loss := d.stop_loss, take_profit := d.take_profit
            metadata := d.metadata, timestamp := ts, source := d.source }
    | none =>
      Signal.post_init
        { type := ty, symbol := d.symbol, confidence := d.confidence
          price := d.price, quantity := d.quantity
          stop_loss := d.stop_loss, take_profit := d.take_profit
          metadata := d.metadata, timestamp := now, source := d.source }

/-! ## Bot state (`xbotv5/core/bot.py`)

The subset of `Bot.__init__`'s attributes that the lifecycle methods,
statistics handlers and properties under verification read or write. -/

/-- An open position; the core only reads `Position.symbol` and
`Position.pnl`. -/
structure Position where
  symbol : String
  pnl : Rat
deriving DecidableEq, Repr

/-- The bot's mutable attributes.  `positions` is the `Dict[str, Position]`
mapping, as an association list with unique keys. -/
structure BotState where
  name : String
  pairs : List String
  timeframe : String
  initialized : Bool
  running : Bool
  total_trades : Nat
  winning_trades : Nat
  losing_trades : Nat
  total_pnl : Rat
  positions : List (String × Position)
deriving DecidableEq, Repr

/-- The attribute defaults set by `Bot.__init__`. -/
def freshBot : BotState :=
  { name := "Unnamed Bot", pairs := [], timeframe := "1h"
    initialized := false, running := false
    total_trades := 0, winning_trades := 0, losing_trades := 0
    total_pnl := 0, positions := [] }

/-- A user-supplied `setup()` hook, per its documented contract: it assigns
the configuration attributes (`name`, `pairs`, `timeframe`) on `self` and
may raise any exception.  Mutation happens in place, so it persists even
when the hook then raises. -/
structure SetupAct where
  name : String
  pairs : List String
  timeframe : String
  raises : Option Exc
deriving DecidableEq, Repr

/-- The in-place mutation performed by running a `setup()` hook. -/
def applySetup (act : SetupAct) (s : BotState) : BotState :=
  { s with name := act.name, pairs := act.pairs, timeframe := act.timeframe }

/-- Embedding of `Bot._validate_config`: raises `ConfigurationError` when `name`,
`pairs` or `timeframe` is falsy (empty). -/
def validateConfig (s : BotState) : Option Exc :=
  if s.name = "" then some (Exc.configurationError "Bot name is required")
  else if s.pairs = [] then
    some (Exc.configurationError "At least one trading pair is required")
  else if s.timeframe = "" then some (Exc.configurationError "Timeframe is required")
  else none

/-- The result of a call to `Bot.initialize`: the state after the call, the
exception the call raises (`none` for a normal return), and whether the
`setup()` hook was invoked. -/
structure InitResult where
  state : BotState
  error : Option Exc
  setupCalled : Bool
deriving DecidableEq, Repr

/-- Embedding of `Bot.initialize`: returns immediately when already initialized;
otherwise runs `setup()`, then `_validate_config()`, and sets
`_initialized = True` only when both succeed.  Its `except Exception`
clause wraps any `Exception` raised by the hook or the validation in
a `ConfigurationError` whose message wraps `str(e)`; an exception that
is not an `Exception` instance (`KeyboardInterrupt`, `SystemExit`) is not
caught and propagates unwrapped. -/
def initBot (act : SetupAct) (s : BotState) : InitResult :=
  if s.initialized then ⟨s, none, false⟩
  else
    let s' := applySetup act s
    match act.raises with
    | some e =>
      if e.isInstanceOfException then
        ⟨s', some (Exc.configurationError ("Bot initialization failed: " ++ e.pyStr)), true⟩
      else ⟨s', some e, true⟩
    | none =>
      match validateConfig s' with
      | some e =>
        ⟨s', some (Exc.configurationError ("Bot initialization failed: " ++ e.pyStr)), true⟩
      | none => ⟨{ s' with initialized := true }, none, true⟩

/-- Embedding of `Bot._handle_position_closed`: for an event whose data carries a
position, bumps the win/loss counter (win iff `pnl > 0`), accumulates
`total_pnl`, and deletes the position's symbol from `positions` when
present.  An event without a position is ignored. -/
def handlePositionClosed (pos : Option Position) (s : BotState) : BotState :=
  match pos with
  | none => s
  | some p =>
    let s1 :=
      if p.pnl > 0 then { s with winning_trades := s.winning_trades + 1 }
      else { s with losing_trades := s.losing_trades + 1 }
    let s2 := { s1 with total_pnl := s1.total_pnl + p.pnl }
    if s2.positions.any (fun kv => kv.1 == p.symbol) then
      { s2 with positions := s2.positions.eraseP (fun kv => kv.1 == p.symbol) }
    else s2

/-- The `Bot.win_rate` property: `0.0` when no closed trade has been
counted, else the winning percentage. -/
def win_rate (s : BotState) : Rat :=
  if s.winning_trades + s.losing_trades = 0 then 0
  else ((s.winning_trades : Rat) / ((s.winning_trades + s.losing_trades : Nat) : Rat)) * 100

/-! ## The run loop (`Bot.run`, `Bot._cleanup`)

`run`'s body after initialization is a `try/except Exception/finally`
around `on_start()`, the `bot_started` emission and the polling loop; the
loop wraps each iteration's processing in its own `try/except Exception`
that logs, emits an `error` event and then breaks only for
`KeyboardInterrupt`/`SystemExit` (a branch that is unreachable, because
those are not `Exception` instances and so never reach it); `finally`
always runs `_cleanup`, which calls `on_stop()` and emits `bot_stopped`
inside one `try/except Exception` of its own.

The loop is driven by a finite schedule of per-iteration outcomes: what
`_process_market_data()` does that iteration, and whether `stop()` was
awaited during it (clearing `_running`, observed at the next loop
condition check).  Hook calls and event-bus emissions are recorded in a
trace; `emit` itself is modelled as non-raising, per the minimal EventBus
contract. -/

/-- Trace events: hook invocations and event-bus emissions of `run`. -/
inductive Ev where
  | onStartCall
  | emitBotStarted
  | processCall
  | emitError (e : Exc)
  | onStopCall
  | emitBotStopped
deriving DecidableEq, Repr

/-- One scheduled loop iteration: the processing step returns normally or
raises `e`; `stopRequested` records whether `stop()` ran during the
iteration. -/
inductive IterAct where
  | ok (stopRequested : Bool)
  | raise (e : Exc) (stopRequested : Bool)
deriving DecidableEq, Repr

/-- How the `while self._running` loop ended. -/
inductive LoopExit where
  | condFalse
  | brk
  | escaped (e : Exc)
  | fuelOut
deriving DecidableEq, Repr

/-- The `while self._running:` loop with its per-iteration
`try/except Exception` handler, returning the recorded trace and the way
the loop ended (`fuelOut` marks a schedule that ran out while the loop was
still running, i.e. a truncated execution). -/
def runLoop : List IterAct → Bool → List Ev × LoopExit
  | _, false => ([], LoopExit.condFalse)
  | [], true => ([], LoopExit.fuelOut)
  | IterAct.ok stopReq :: rest, true =>
    let r := runLoop rest (!stopReq)
    (Ev.processCall :: r.1, r.2)
  | IterAct.raise e stopReq :: rest, true =>
    if e.isInstanceOfException then
      if e.isKbdIntOrSysExit then
        ([Ev.processCall, Ev.emitError e], LoopExit.brk)
      else
        let r := runLoop rest (!stopReq)
        (Ev.processCall :: Ev.emitError e :: r.1, r.2)
    else ([Ev.processCall], LoopExit.escaped e)

/-- Embedding of `Bot._cleanup`: calls `on_stop()` and then emits `bot_stopped`, both
inside one `try/except Exception` that only logs.  When `on_stop()`
raises, the emission is skipped; when what it raises is not an
`Exception` instance, the exception also escapes `_cleanup`. -/
def cleanupBot (onStop : Option Exc) : List Ev × Option Exc :=
  match onStop with
  | none => ([Ev.onStopCall, Ev.emitBotStopped], none)
  | some e =>
    ([Ev.onStopCall], if e.isInstanceOfException then none else some e)

/-- The behaviour of one execution of `run`'s body: what `on_start()`
does, the loop schedule, and what `on_stop()` does. -/
structure RunCfg where
  onStart : Option Exc
  iters : List IterAct
  onStop : Option Exc
deriving DecidableEq, Repr

/-- How the `try` block of `run` ended. -/
inductive TryExit where
  | normal
  | exc (e : Exc)
  | truncated
deriving DecidableEq, Repr

/-- The `try` block of `run`: `on_start()`, the `bot_started` emission,
then the loop. -/
def runTry (cfg : RunCfg) : List Ev × TryExit :=
  match cfg.onStart with
  | some e => ([Ev.onStartCall], TryExit.exc e)
  | none =>
    let r := runLoop cfg.iters true
    (Ev.onStartCall :: Ev.emitBotStarted :: r.1,
     match r.2 with
     | LoopExit.condFalse => TryExit.normal
     | LoopExit.brk => TryExit.normal
     | LoopExit.escaped e => TryExit.exc e
     | LoopExit.fuelOut => TryExit.truncated)

/-- The overall outcome of `run`'s body: normal return, an exception
propagating out, or a truncated (still running) execution. -/
inductive RunOutcome where
  | returned
  | raised (e : Exc)
  | truncated
deriving DecidableEq, Repr

/-- The body of `Bot.run` after initialization succeeds: the `try` block,
the outer `except Exception` (log + `error` emission, swallowing the
exception), and the `finally` that runs `_cleanup` — whose own escaping
exception, per Python `finally` semantics, replaces any in-flight one. -/
def runBody (cfg : RunCfg) : List Ev × RunOutcome :=
  let t := runTry cfg
  match t.2 with
  | TryExit.truncated => (t.1, RunOutcome.truncated)
  | TryExit.normal =>
    let c := cleanupBot cfg.onStop
    (t.1 ++ c.1,
     match c.2 with
     | none => RunOutcome.returned
     | some e2 => RunOutcome.raised e2)
  | TryExit.exc e =>
    if e.isInstanceOfException then
      let c := cleanupBot cfg.onStop
      (t.1 ++ Ev.emitError e :: c.1,
       match c.2 with
       | none => RunOutcome.returned
       | some e2 => RunOutcome.raised e2)
    else
      let c := cleanupBot cfg.onStop
      (t.1 ++ c.1,
       match c.2 with
       | none => RunOutcome.raised e
       | some e2 => RunOutcome.raised e2)

/-! ## Concrete inputs used by the witnesses -/

/-- A setup hook that leaves a valid configuration. -/
def actGood : SetupAct := ⟨"X", ["BTC/USDT"], "1h", none⟩

/-- A setup hook that leaves `pairs` empty. -/
def actNoPairs : SetupAct := ⟨"X", [], "1h", none⟩

/-- A well-formed sample signal (the metadata mapping instantiated with
string-to-string entries). -/
def sampleSignal : Signal (List (String × String)) :=
  { type := SignalType.buy, symbol := "BTC/USDT", confidence := 0.85
    price := some 45000, quantity := none
    stop_loss := some 44000, take_profit := some 46000
    metadata := [("strategy", "rsi")], timestamp := 1700000000
    source := "unknown" }

/-- A signal record with an out-of-range confidence. -/
def badSignal : Signal Unit :=
  { type := SignalType.buy, symbol := "BTC/USDT", confidence := 1.5
    price := none, quantity := none, stop_loss := none, take_profit := none
    metadata := (), timestamp := 0, source := "unknown" }

/-- A bot holding one open position, with some prior statistics. -/
def botWithPos : BotState :=
  { freshBot with
    positions := [("BTC/USDT", ⟨"BTC/USDT", 100⟩)]
    winning_trades := 2, losing_trades := 1, total_pnl := 10 }

/-- A winning position. -/
def posWin : Position := ⟨"BTC/USDT", 50⟩

/-- A losing position. -/
def posLose : Position := ⟨"ETH/USDT", -20⟩

/-- A setup hook that raises `KeyboardInterrupt`. -/
def actKI : SetupAct := ⟨"X", ["BTC/USDT"], "1h", some Exc.keyboardInterrupt⟩

/-- A bot with some closed-trade statistics. -/
def statsBot : BotState := { freshBot with winning_trades := 3, losing_trades := 1 }

/-- A run whose second iteration observes a `stop()` request and whose
`on_stop()` hook returns normally. -/
def cfgStop : RunCfg := ⟨none, [IterAct.ok false, IterAct.ok true], none⟩

/-- A run stopped after one iteration whose `on_stop()` hook raises a
`ValueError`. -/
def cfgStopRaises : RunCfg := ⟨none, [IterAct.ok true], some (Exc.valueError "boom")⟩

/-- A dictionary carrying an unknown signal-type tag. -/
def unknownDict : SignalDict Unit :=
  { type := "banana", symbol := "BTC/USDT", confidence := 1
    price := none, quantity := none, stop_loss := none, take_profit := none
    metadata := (), timestamp := none, source := "unknown" }

/-! ## Helper lemmas about the timestamp encoding -/

/-- Decoding a digit character recovers the digit. -/
theorem charDigit_digitChar (k : Nat) (h : k < 10) : charDigit (digitChar k) = k := by
  interval_cases k <;> decide

/-- Digit characters are decimal digits. -/
theorem isDigit_digitChar (k : Nat) (h : k < 10) : (digitChar k).isDigit = true := by
  interval_cases k <;> decide

/-- Theorem that `fromisoformat` inverts `isoformat`: the model of the standard
library's round-trip guarantee for ISO-8601 timestamps. -/
theorem fromisoformat_isoformat (d : DateTime) : fromisoformat (isoformat d) = some d := by
  by_cases h0 : d = 0
  · subst h0; decide
  · have hdig : ∀ k ∈ Nat.digits 10 d, k < 10 := fun k hk =>
      Nat.digits_lt_base (by norm_num) hk
    have hne : Nat.digits 10 d ≠ [] := Nat.digits_ne_nil_iff_ne_zero.mpr h0
    rw [isoformat, if_neg h0, fromisoformat]
    have hdata : (String.mk (((Nat.digits 10 d).map digitChar).reverse)).data
        = ((Nat.digits 10 d).map digitChar).reverse := rfl
    rw [hdata]
    have hempty : (((Nat.digits 10 d).map digitChar).reverse).isEmpty = false := by
      rw [List.isEmpty_eq_false_iff_exists_mem]
      obtain ⟨k, hk⟩ := List.exists_mem_of_ne_nil _ hne
      exact ⟨digitChar k, by
        rw [List.mem_reverse]
        exact List.mem_map_of_mem digitChar hk⟩
    have hall : (((Nat.digits 10 d).map digitChar).reverse).all Char.isDigit = true := by
      rw [List.all_eq_true]
      intro c hc
      rw [List.mem_reverse, List.mem_map] at hc
      obtain ⟨k, hk, rfl⟩ := hc
      exact isDigit_digitChar k (hdig k hk)
    rw [hempty, hall]
    simp only [Bool.not_false, Bool.true_and, if_pos]
    congr 1
    rw [List.map_reverse, List.reverse_reverse, List.map_map]
    have : (Nat.digits 10 d).map (charDigit ∘ digitChar) = Nat.digits 10 d := by
      apply List.map_congr_left ?_ |>.trans (List.map_id _)
      intro k hk
      exact charDigit_digitChar k (hdig k hk)
    rw [this, Nat.ofDigits_digits]

/-! ## Claims about the signal model -/

/-- C9: for every signal, `is_exit_signal()` is true exactly when its type
is SELL, CLOSE, STOP_LOSS or TAKE_PROFIT, and false exactly when its type
is BUY or HOLD — a partition of all six signal types. -/
theorem is_exit_signal_partition {μ : Type} (s : Signal μ) :
    (s.is_exit_signal = true ↔
      (s.type = SignalType.sell ∨ s.type = SignalType.close ∨
       s.type = SignalType.stop_loss ∨ s.type = SignalType.take_profit))
    ∧ (s.is_exit_signal = false ↔
      (s.type = SignalType.buy ∨ s.type = SignalType.hold)) := by
  obtain ⟨ty, sym, conf, pr, qu, sl, tp, md, ts, src⟩ := s
  cases ty <;> simp [Signal.is_exit_signal]

/-- C4: constructing a signal with confidence outside `[0, 1]` fails with
the `ValueError` of `__post_init__`, and construction never fails on
account of a confidence inside `[0, 1]`. -/
theorem signal_confidence_validation {μ : Type} (s : Signal μ) :
    ((s.confidence < 0 ∨ 1 < s.confidence) →
      Signal.post_init s
        = Except.error (Exc.valueError "Confidence must be between 0.0 and 1.0"))
    ∧ (0 ≤ s.confidence → s.confidence ≤ 1 → Signal.post_init s = Except.ok s) := by
  constructor
  · intro h
    have hc : ¬ (0 ≤ s.confidence ∧ s.confidence ≤ 1) := by
      rcases h with h | h
      · exact fun hx => absurd hx.1 (not_le.mpr h)
      · exact fun hx => absurd hx.2 (not_le.mpr h)
    rw [Signal.post_init, if_pos hc]
  · intro h0 h1
    rw [Signal.post_init, if_neg (not_not_intro ⟨h0, h1⟩)]

/-- Witness for C4: a confidence of 1.5 is rejected, a confidence of 0.85
is accepted. -/
theorem signal_confidence_validation_witness :
    Signal.post_init badSignal
      = Except.error (Exc.valueError "Confidence must be between 0.0 and 1.0")
    ∧ Signal.post_init sampleSignal = Except.ok sampleSignal :=
  ⟨(signal_confidence_validation badSignal).1 (Or.inr (by norm_num [badSignal])),
   (signal_confidence_validation sampleSignal).2 (by norm_num [sampleSignal])
     (by norm_num [sampleSignal])⟩

/-- C2: for every successfully constructed signal (any type, symbol,
confidence in `[0, 1]`, optional fields present or absent, any metadata
mapping, any timestamp, any source), `from_dict (to_dict s)` succeeds and
returns a signal equal to `s` in every field. -/
theorem to_dict_from_dict_roundtrip {μ : Type} (now : DateTime) (s : Signal μ)
    (h0 : 0 ≤ s.confidence) (h1 : s.confidence ≤ 1) :
    Signal.from_dict now (Signal.to_dict s) = Except.ok s := by
  obtain ⟨ty, sym, conf, pr, qu, sl, tp, md, ts, src⟩ := s
  have hty : SignalType.fromValue (SignalType.value ty) = some ty := by
    cases ty <;> decide
  simp only [Signal.to_dict, Signal.from_dict, hty, fromisoformat_isoformat]
  rw [Signal.post_init, if_neg (not_not_intro ⟨h0, h1⟩)]

/-- Witness for C2: the sample signal round-trips through the dictionary
encoding. -/
theorem to_dict_from_dict_roundtrip_witness :
    Signal.from_dict 0 (Signal.to_dict sampleSignal) = Except.ok sampleSignal :=
  to_dict_from_dict_roundtrip 0 sampleSignal (by norm_num [sampleSignal])
    (by norm_num [sampleSignal])

/-- C8: `from_dict` rejects any dictionary whose `type` slot is not one of
the six known tags, raising the enum's `ValueError`; each of the six known
tags decodes to the corresponding `SignalType` member. -/
theorem from_dict_type_tag_spec {μ : Type} (now : DateTime) (d : SignalDict μ)
    (h : d.type ∉ (["buy", "sell", "hold", "close", "stop_loss", "take_profit"] :
      List String)) :
    Signal.from_dict now d
      = Except.error (Exc.valueError (d.type ++ " is not a valid SignalType"))
    ∧ SignalType.fromValue "buy" = some SignalType.buy
    ∧ SignalType.fromValue "sell" = some SignalType.sell
    ∧ SignalType.fromValue "hold" = some SignalType.hold
    ∧ SignalType.fromValue "close" = some SignalType.close
    ∧ SignalType.fromValue "stop_loss" = some SignalType.stop_loss
    ∧ SignalType.fromValue "take_profit" = some SignalType.take_profit := by
  simp only [List.mem_cons, List.not_mem_nil, or_false, not_or] at h
  obtain ⟨h1, h2, h3, h4, h5, h6⟩ := h
  have hv : SignalType.fromValue d.type = none := by
    rw [SignalType.fromValue, if_neg h1, if_neg h2, if_neg h3, if_neg h4,
      if_neg h5, if_neg h6]
  refine ⟨?_, by decide, by decide, by decide, by decide, by decide, by decide⟩
  simp only [Signal.from_dict, hv]

/-- Witness for C8: the tag `"banana"` is rejected by `from_dict`. -/
theorem from_dict_type_tag_witness :
    Signal.from_dict 0 unknownDict
      = Except.error (Exc.valueError ("banana" ++ " is not a valid SignalType")) :=
  (from_dict_type_tag_spec 0 unknownDict (by decide)).1

/-! ## Claims about initialization -/

/-- C3 (amended): on a not-yet-initialized bot, `initialize()` always runs
`setup()`; it returns normally exactly when the hook does not raise and the
mutated configuration validates, in which case (and only then) the
`initialized` flag becomes true; every failure whose cause is an
`Exception` instance surfaces as a `ConfigurationError`; a cause that is
not an `Exception` instance propagates unwrapped. -/
theorem init_spec (act : SetupAct) (s : BotState) (h : s.initialized = false) :
    (initBot act s).setupCalled = true
    ∧ ((initBot act s).error = none ↔
        (act.raises = none ∧ validateConfig (applySetup act s) = none))
    ∧ ((initBot act s).state.initialized = true ↔ (initBot act s).error = none)
    ∧ (act.raises.all Exc.isInstanceOfException = true →
        (initBot act s).error.all Exc.isConfigurationError = true)
    ∧ (∀ e, act.raises = some e → e.isInstanceOfException = false →
        (initBot act s).error = some e) := by
  have hnot : ¬ (s.initialized = true) := by simp [h]
  cases hr : act.raises with
  | some e =>
    cases hie : e.isInstanceOfException with
    | true =>
      have heq : initBot act s
          = ⟨applySetup act s,
             some (Exc.configurationError ("Bot initialization failed: " ++ e.pyStr)),
             true⟩ := by
        rw [initBot, if_neg hnot]
        simp [hr, hie]
      rw [heq]
      refine ⟨rfl, by simp [hr], by simp [applySetup, h], fun _ => rfl, ?_⟩
      intro e' he' hie'
      injection he' with he'
      subst he'
      rw [hie] at hie'
      exact absurd hie' (by simp)
    | false =>
      have heq : initBot act s = ⟨applySetup act s, some e, true⟩ := by
        rw [initBot, if_neg hnot]
        simp [hr, hie]
      rw [heq]
      refine ⟨rfl, by simp [hr], by simp [applySetup, h], ?_, ?_⟩
      · intro hall
        simp [Option.all, hie] at hall
      · intro e' he' _
        injection he' with he'
        subst he'
        rfl
  | none =>
    cases hv : validateConfig (applySetup act s) with
    | some e =>
      have heq : initBot act s
          = ⟨applySetup act s,
             some (Exc.configurationError ("Bot initialization failed: " ++ e.pyStr)),
             true⟩ := by
        rw [initBot, if_neg hnot]
        simp [hr, hv]
      rw [heq]
      refine ⟨rfl, by simp [hr, hv], by simp [applySetup, h], fun _ => rfl, ?_⟩
      intro e' he' _
      cases he'
    | none =>
      have heq : initBot act s
          = ⟨{ applySetup act s with initialized := true }, none, true⟩ := by
        rw [initBot, if_neg hnot]
        simp [hr, hv]
      rw [heq]
      refine ⟨rfl, by simp [hr, hv], by simp, fun _ => rfl, ?_⟩
      intro e' he' _
      cases he'

/-- Counterexample for C3: a `setup()` hook that raises
`KeyboardInterrupt` makes `initialize()` propagate `KeyboardInterrupt`
itself — not a `ConfigurationError` — because the method's
`except Exception` clause does not catch it (the claim promises a
`ConfigurationError` whenever `setup()` raises). -/
theorem init_keyboard_interrupt_cex :
    (initBot actKI freshBot).error = some Exc.keyboardInterrupt
    ∧ (initBot actKI freshBot).error.all Exc.isConfigurationError = false
    ∧ (initBot actKI freshBot).state.initialized = false := by
  decide

/-- Witness for C3: the valid configuration succeeds, the empty-pairs
configuration fails with a `ConfigurationError`, each leaving the
`initialized` flag as the claim states. -/
theorem init_spec_witness :
    (initBot actGood freshBot).error = none
    ∧ (initBot actGood freshBot).state.initialized = true
    ∧ (initBot actNoPairs freshBot).error.all Exc.isConfigurationError = true
    ∧ (initBot actNoPairs freshBot).error.isSome = true
    ∧ (initBot actNoPairs freshBot).state.initialized = false := by
  refine ⟨(init_spec actGood freshBot rfl).2.1.mpr ⟨rfl, by decide⟩,
    ?_, ?_, ?_, ?_⟩ <;> decide

/-- C5: a second `initialize()` call after a successful one is a no-op —
whatever hook the second call would use, it returns at the initialized
check without invoking it, raises nothing, and leaves the state equal to
the state after the first call. -/
theorem init_idempotent (act act2 : SetupAct) (s : BotState)
    (h : (initBot act s).error = none) :
    initBot act2 (initBot act s).state = ⟨(initBot act s).state, none, false⟩ := by
  have hinit : (initBot act s).state.initialized = true := by
    rw [initBot] at h ⊢
    by_cases hs : s.initialized = true
    · rw [if_pos hs] at h ⊢
      exact hs
    · rw [if_neg hs] at h ⊢
      cases hr : act.raises with
      | some e =>
        rw [hr] at h
        cases hie : e.isInstanceOfException <;> simp [hie] at h
      | none =>
        rw [hr] at h
        cases hv : validateConfig (applySetup act s) with
        | some e2 => simp [hv] at h
        | none => simp [hv]
  rw [initBot, if_pos hinit]

/-- Witness for C5: after a successful initialization from the fresh
state, a second call (with a different hook) changes nothing and invokes
no hook. -/
theorem init_idempotent_witness :
    initBot ⟨"Y", ["ETH/USDT"], "5m", none⟩ (initBot actGood freshBot).state
      = ⟨(initBot actGood freshBot).state, none, false⟩ :=
  init_idempotent actGood ⟨"Y", ["ETH/USDT"], "5m", none⟩ freshBot (by decide)

/-! ## Claims about the statistics handlers -/

/-- Looking a key up in an association list without that key yields
nothing. -/
theorem lookup_eq_none_of_not_mem {β : Type} (a : String) (l : List (String × β))
    (h : a ∉ l.map Prod.fst) : l.lookup a = none := by
  induction l with
  | nil => rfl
  | cons kv t ih =>
    obtain ⟨k, v⟩ := kv
    simp only [List.map_cons, List.mem_cons, not_or] at h
    have hne : (a == k) = false := beq_eq_false_iff_ne.mpr h.1
    simp [List.lookup, hne, ih h.2]

/-- After erasing the entry with key `a` from a duplicate-free association
list, `a` is no longer found. -/
theorem lookup_eraseP_self {β : Type} (a : String) (l : List (String × β))
    (h : (l.map Prod.fst).Nodup) :
    (l.eraseP (fun kv => kv.1 == a)).lookup a = none := by
  induction l with
  | nil => rfl
  | cons kv t ih =>
    obtain ⟨k, v⟩ := kv
    simp only [List.map_cons, List.nodup_cons] at h
    by_cases hk : k = a
    · subst hk
      simp only [List.eraseP_cons, beq_self_eq_true, cond_true]
      exact lookup_eq_none_of_not_mem k t h.1
    · have hpk : (k == a) = false := beq_eq_false_iff_ne.mpr hk
      have hak : (a == k) = false := beq_eq_false_iff_ne.mpr (Ne.symm hk)
      simp only [List.eraseP_cons, hpk, cond_false]
      simp [List.lookup, hak, ih h.2]

/-- Erasing the entry with key `a` does not change the lookup of any other
key. -/
theorem lookup_eraseP_ne {β : Type} (a b : String) (l : List (String × β))
    (hne : b ≠ a) :
    (l.eraseP (fun kv => kv.1 == a)).lookup b = l.lookup b := by
  induction l with
  | nil => rfl
  | cons kv t ih =>
    obtain ⟨k, v⟩ := kv
    by_cases hk : k = a
    · subst hk
      have hbk : (b == k) = false := beq_eq_false_iff_ne.mpr hne
      simp [List.eraseP_cons, List.lookup, hbk]
    · have hpk : (k == a) = false := beq_eq_false_iff_ne.mpr hk
      by_cases hbk : b = k
      · subst hbk
        simp [List.eraseP_cons, hpk, List.lookup]
      · have hbk' : (b == k) = false := beq_eq_false_iff_ne.mpr hbk
        simp [List.eraseP_cons, hpk, List.lookup, hbk', ih]

/-- The position-closed handler, written out field by field. -/
theorem handlePositionClosed_some_eq (p : Position) (s : BotState) :
    handlePositionClosed (some p) s =
      { s with
        winning_trades :=
          if p.pnl > 0 then s.winning_trades + 1 else s.winning_trades
        losing_trades :=
          if p.pnl > 0 then s.losing_trades else s.losing_trades + 1
        total_pnl := s.total_pnl + p.pnl
        positions :=
          if s.positions.any (fun kv => kv.1 == p.symbol) then
            s.positions.eraseP (fun kv => kv.1 == p.symbol)
          else s.positions } := by
  rw [handlePositionClosed]
  by_cases hp : p.pnl > 0 <;>
    by_cases hm : s.positions.any (fun kv => kv.1 == p.symbol) <;>
      simp [hp, hm]

/-- C6: handling a `position_closed` event carrying position `p` bumps
`winning_trades` when `p.pnl > 0` and `losing_trades` otherwise, adds
`p.pnl` to `total_pnl`, removes `p.symbol` from the positions mapping
(whether or not it was present), and leaves every other symbol's entry
unchanged. -/
theorem handle_position_closed_spec (p : Position) (s : BotState)
    (hkeys : (s.positions.map Prod.fst).Nodup) :
    ((p.pnl > 0 →
        (handlePositionClosed (some p) s).winning_trades = s.winning_trades + 1
        ∧ (handlePositionClosed (some p) s).losing_trades = s.losing_trades)
      ∧ (¬ p.pnl > 0 →
        (handlePositionClosed (some p) s).losing_trades = s.losing_trades + 1
        ∧ (handlePositionClosed (some p) s).winning_trades = s.winning_trades))
    ∧ (handlePositionClosed (some p) s).total_pnl = s.total_pnl + p.pnl
    ∧ (handlePositionClosed (some p) s).positions.lookup p.symbol = none
    ∧ ∀ sym, sym ≠ p.symbol →
        (handlePositionClosed (some p) s).positions.lookup sym
          = s.positions.lookup sym := by
  rw [handlePositionClosed_some_eq]
  refine ⟨⟨fun hp => by simp [hp], fun hp => by simp [hp]⟩, rfl, ?_, ?_⟩
  · by_cases hm : s.positions.any (fun kv => kv.1 == p.symbol) = true
    · rw [if_pos hm]
      exact lookup_eraseP_self p.symbol s.positions hkeys
    · rw [if_neg hm]
      apply lookup_eq_none_of_not_mem
      intro hmem
      apply hm
      rw [List.any_eq_true]
      obtain ⟨kv, hkv, hk⟩ := List.mem_map.mp hmem
      exact ⟨kv, hkv, by simpa using hk⟩
  · intro sym hsym
    by_cases hm : s.positions.any (fun kv => kv.1 == p.symbol) = true
    · rw [if_pos hm]
      exact lookup_eraseP_ne p.symbol sym s.positions hsym
    · rw [if_neg hm]

/-- Witness for C6: closing a winning position (`pnl = 50`) bumps
`winning_trades` from 2 to 3 and `total_pnl` from 10 to 60 and removes the
symbol; closing a losing one (`pnl = -20`) bumps `losing_trades` from 1 to
2 and drops `total_pnl` to -10. -/
theorem handle_position_closed_witness :
    (handlePositionClosed (some posWin) botWithPos).winning_trades = 3
    ∧ (handlePositionClosed (some posWin) botWithPos).losing_trades = 1
    ∧ (handlePositionClosed (some posWin) botWithPos).total_pnl = 60
    ∧ (handlePositionClosed (some posWin) botWithPos).positions.lookup "BTC/USDT"
        = none
    ∧ (handlePositionClosed (some posLose) botWithPos).losing_trades = 2
    ∧ (handlePositionClosed (some posLose) botWithPos).winning_trades = 2
    ∧ (handlePositionClosed (some posLose) botWithPos).total_pnl = -10 := by
  have hp : posWin.pnl > 0 := by norm_num [posWin]
  have hn : ¬ posLose.pnl > 0 := by norm_num [posLose]
  have hW := handle_position_closed_spec posWin botWithPos (by decide)
  have hL := handle_position_closed_spec posLose botWithPos (by decide)
  refine ⟨(hW.1.1 hp).1, (hW.1.1 hp).2, ?_, hW.2.2.1,
    (hL.1.2 hn).1, (hL.1.2 hn).2, ?_⟩
  · rw [hW.2.1]
    norm_num [botWithPos, posWin, freshBot]
  · rw [hL.2.1]
    norm_num [botWithPos, posLose, freshBot]

/-- C10: the `win_rate` property returns exactly `0.0` when no closed
trade is recorded (so the division is never reached), otherwise the
winning fraction times 100; in all cases the result lies in `[0, 100]`. -/
theorem win_rate_spec (s : BotState) :
    (s.winning_trades + s.losing_trades = 0 → win_rate s = 0)
    ∧ (s.winning_trades + s.losing_trades ≠ 0 →
        win_rate s = ((s.winning_trades : Rat)
          / ((s.winning_trades : Rat) + (s.losing_trades : Rat))) * 100)
    ∧ 0 ≤ win_rate s ∧ win_rate s ≤ 100 := by
  refine ⟨fun h => by rw [win_rate, if_pos h], fun h => ?_, ?_, ?_⟩
  · rw [win_rate, if_neg h]
    push_cast
    ring
  · rw [win_rate]
    split_ifs with h
    · norm_num
    · have h1 : (0 : Rat) ≤ (s.winning_trades : Rat) := by positivity
      have h2 : (0 : Rat) ≤ ((s.winning_trades + s.losing_trades : Nat) : Rat) := by
        positivity
      have := div_nonneg h1 h2
      nlinarith
  · rw [win_rate]
    split_ifs with h
    · norm_num
    · have htot : (0 : Rat) < ((s.winning_trades + s.losing_trades : Nat) : Rat) := by
        exact_mod_cast Nat.pos_of_ne_zero h
      have hle : (s.winning_trades : Rat)
          ≤ ((s.winning_trades + s.losing_trades : Nat) : Rat) := by
        exact_mod_cast Nat.le_add_right _ _
      have hdiv := (div_le_one htot).mpr hle
      nlinarith

/-- Witness for C10: a fresh bot reports a win rate of 0; a 3-win, 1-loss
bot's win rate lies within `[0, 100]`. -/
theorem win_rate_witness :
    win_rate freshBot = 0 ∧ 0 ≤ win_rate statsBot ∧ win_rate statsBot ≤ 100 :=
  ⟨(win_rate_spec freshBot).1 rfl,
   (win_rate_spec statsBot).2.2.1, (win_rate_spec statsBot).2.2.2⟩

/-! ## Claims about the run loop and its cleanup -/

/-- The loop trace contains no cleanup events (those are produced only by
`_cleanup`). -/
theorem runLoop_trace_events (l : List IterAct) (r : Bool) :
    Ev.onStopCall ∉ (runLoop l r).1 ∧ Ev.emitBotStopped ∉ (runLoop l r).1 := by
  induction l generalizing r with
  | nil => cases r <;> simp [runLoop]
  | cons act rest ih =>
    cases r
    · simp [runLoop]
    · cases act with
      | ok stopReq => simpa [runLoop] using ih (!stopReq)
      | raise e stopReq =>
        by_cases hie : e.isInstanceOfException = true
        · by_cases hk : e.isKbdIntOrSysExit = true
          · simp [runLoop, hie, hk]
          · simpa [runLoop, hie, hk] using ih (!stopReq)
        · simp [runLoop, hie]

/-- The whole `try`-block trace contains no cleanup events either. -/
theorem runTry_trace_events (cfg : RunCfg) :
    Ev.onStopCall ∉ (runTry cfg).1 ∧ Ev.emitBotStopped ∉ (runTry cfg).1 := by
  cases h : cfg.onStart with
  | some e => simp [runTry, h]
  | none =>
    have hl := runLoop_trace_events cfg.iters true
    simp [runTry, h, hl.1, hl.2]

/-- C1 (amended): every completed execution of `run`'s body — whatever
made the loop exit — invokes `on_stop()` exactly once; the `bot_stopped`
event is emitted exactly once when `on_stop()` returns normally, and not
at all when `on_stop()` raises (the emission sits after the hook inside
`_cleanup`'s own `try`, so a raising hook skips it). -/
theorem run_cleanup_spec (cfg : RunCfg) (h : (runBody cfg).2 ≠ RunOutcome.truncated) :
    (runBody cfg).1.count Ev.onStopCall = 1
    ∧ (runBody cfg).1.count Ev.emitBotStopped
        = (if cfg.onStop = none then 1 else 0) := by
  have htr := runTry_trace_events cfg
  have h1 : (runTry cfg).1.count Ev.onStopCall = 0 :=
    List.count_eq_zero.mpr htr.1
  have h2 : (runTry cfg).1.count Ev.emitBotStopped = 0 :=
    List.count_eq_zero.mpr htr.2
  rw [runBody] at h ⊢
  cases hte : (runTry cfg).2 with
  | truncated =>
    rw [hte] at h
    exact absurd rfl h
  | normal =>
    cases hos : cfg.onStop <;>
      simp [cleanupBot, List.count_append, List.count_cons, List.count_nil,
        beq_iff_eq, h1, h2]
  | exc e =>
    by_cases hie : e.isInstanceOfException = true <;>
      cases hos : cfg.onStop <;>
        simp [hie, cleanupBot, List.count_append, List.count_cons,
          List.count_nil, beq_iff_eq, h1, h2]

/-- Counterexample for C1: in a completed run whose `on_stop()` hook
raises, `on_stop()` is invoked once but `bot_stopped` is never emitted —
the claim's "each exactly once, including when `on_stop()` itself raises"
fails. -/
theorem run_cleanup_cex :
    (runBody cfgStopRaises).2 ≠ RunOutcome.truncated
    ∧ (runBody cfgStopRaises).1.count Ev.onStopCall = 1
    ∧ ¬ (runBody cfgStopRaises).1.count Ev.emitBotStopped = 1 := by
  decide

/-- Witness for C1: a run stopped by `stop()` during its second iteration
completes, invokes `on_stop()` once and emits `bot_stopped` once. -/
theorem run_cleanup_witness :
    (runBody cfgStop).1.count Ev.onStopCall = 1
    ∧ (runBody cfgStop).1.count Ev.emitBotStopped = 1 := by
  have h := run_cleanup_spec cfgStop (by decide)
  exact ⟨h.1, by simpa using h.2⟩

/-- C7 (amended): when the processing step raises an exception that is an
instance of `Exception` while the loop is running, the per-iteration
handler catches it, emits it as an `error` event, and execution continues
with the rest of the schedule at the next loop-condition check (so the
loop keeps running unless `stop()` was requested during the iteration);
the handler's `KeyboardInterrupt`/`SystemExit` break branch is
unreachable, since those are not `Exception` instances and never enter the
handler. -/
theorem loop_catches_exception_instances (e : Exc) (stopReq : Bool)
    (rest : List IterAct) (h : e.isInstanceOfException = true) :
    runLoop (IterAct.raise e stopReq :: rest) true
      = (Ev.processCall :: Ev.emitError e :: (runLoop rest (!stopReq)).1,
         (runLoop rest (!stopReq)).2) := by
  have hk : e.isKbdIntOrSysExit = false := by
    cases e <;> simp_all [Exc.isInstanceOfException, Exc.isKbdIntOrSysExit]
  rw [runLoop]
  rw [if_pos h, if_neg (by simp [hk])]

/-- Counterexample for C7: a `KeyboardInterrupt` raised by the processing
step escapes the per-iteration handler entirely — no `error` event is
emitted and the loop exits — contradicting the claim that every exception
is caught, published and followed by the next iteration. -/
theorem loop_keyboard_interrupt_cex :
    (runLoop [IterAct.raise Exc.keyboardInterrupt false] true).2
      = LoopExit.escaped Exc.keyboardInterrupt
    ∧ Ev.emitError Exc.keyboardInterrupt
        ∉ (runLoop [IterAct.raise Exc.keyboardInterrupt false] true).1 := by
  decide

/-- Witness for C7: a `RuntimeError` raised in the first iteration is
recorded as an `error` emission and the loop goes on to process the rest
of the schedule. -/
theorem loop_catches_exception_witness :
    runLoop [IterAct.raise (Exc.runtimeError "boom") false] true
      = (Ev.processCall :: Ev.emitError (Exc.runtimeError "boom")
           :: (runLoop [] (!false)).1,
         (runLoop [] (!false)).2) :=
  loop_catches_exception_instances (Exc.runtimeError "boom") false [] rfl
